import Mathlib

/-!
Typesense cluster resource: lifecycle operations.

Shallow embedding of `typesense/cluster_resource.go`: the `Create`, `Read` and
`Update` methods of `clusterResource`.

* The API client is a deterministic state machine over an arbitrary state type;
  every call returns its result together with the next client state.
* Each operation yields a `Run`: the ordered list of outward events (client
  calls and sleeps), the final client state and the `Outcome`.
* The unbounded `for` loop of `Create` is driven by a fuel argument counting
  loop iterations; `none` means the loop has not finished within the fuel.
* `cluster.Regions[0]` on an empty slice is a Go run-time error; it is the
  outcome `Outcome.outOfRange`.
* Decoding the plan / prior state and encoding the new state are done by the
  host framework; the operations take the decoded model and the value handed
  to `resp.State.Set` is the recorded state.
-/

namespace Typesense

/-! ## Framework values -/

/-- Framework string value (`types.String`): null, unknown, or a known string. -/
inductive TfString where
  | null
  | unknown
  | known (v : String)
  deriving DecidableEq, Repr

/-- Framework boolean value (`types.Bool`): null, unknown, or a known boolean. -/
inductive TfBool where
  | null
  | unknown
  | known (v : Bool)
  deriving DecidableEq, Repr

/-- The method `ValueString()`: the known string, or the empty string for null / unknown. -/
def TfString.ValueString : TfString → String
  | .known v => v
  | _ => ""

/-- The method `ValueBool()`: the known boolean, or false for null / unknown. -/
def TfBool.ValueBool : TfBool → Bool
  | .known v => v
  | _ => false

/-- The constructor `types.StringValue`. -/
def StringValue (v : String) : TfString := .known v

/-- The constructor `types.BoolValue`. -/
def BoolValue (v : Bool) : TfBool := .known v

/-! ## Data model -/

/-- Modelled from the spec: the declaration of `typesenseCluster` (the
ResourceRecord) is not among the sources; the fields are the ones
`cluster_resource.go` reads and writes, with the types of the spec's data
model. Field defaults are the Go zero values, so a literal that leaves a field
out carries the zero value there. -/
structure typesenseCluster where
  ID : String := ""
  Name : String := ""
  Memory : String := ""
  VCPU : String := ""
  Regions : List String := []
  HighAvailability : String := ""
  SearchDeliveryNetwork : String := ""
  HighPerformanceDisk : String := ""
  LoadBalancing : String := ""
  TypesenseServerVersion : String := ""
  AutoUpgradeCapacity : Bool := false
  Status : String := ""
  deriving DecidableEq, Repr

/-- Modelled from the spec: the declaration of `typesenseClusterModel` (plan and
StateSnapshot) is not among the sources; it has one field per attribute of
`clusterResourceSchema`, under the names `cluster_resource.go` uses. -/
structure typesenseClusterModel where
  ID : TfString
  Name : TfString
  Memory : TfString
  VCPU : TfString
  HighPerformanceDisk : TfString
  TypesenseServerVersion : TfString
  HighAvailability : TfString
  SearchDeliveryNetwork : TfString
  LoadBalancing : TfString
  Region : TfString
  AutoUpgradeCapacity : TfBool
  Status : TfString
  deriving DecidableEq, Repr

/-- Modelled from the spec: the Go `error` returned by a client call. The code
only ever calls `err.Error()` on it (`message`); `notFound` stands for whatever
else in the error value tells that the remote system reported the id missing. -/
structure ClientError where
  notFound : Bool
  message : String
  deriving DecidableEq, Repr

/-- Modelled from the spec: the declaration of `typesenseClient` is not among
the sources; these are the four calls `cluster_resource.go` makes on it
(spec 4.2), each returning its result and the next client state. -/
structure typesenseClient (σ : Type) where
  CreateCluster : σ → typesenseCluster → Except ClientError typesenseCluster × σ
  GetCluster : σ → String → Except ClientError typesenseCluster × σ
  UpdateCluster : σ → typesenseCluster → Option ClientError × σ
  TerminateCluster : σ → String → Option ClientError × σ

/-- An error diagnostic added with `resp.Diagnostics.AddError(summary, detail)`. -/
structure Diagnostic where
  summary : String
  detail : String
  deriving DecidableEq, Repr

/-- Outward events of an operation, in program order. -/
inductive Event where
  | create (req : typesenseCluster)
  | sleep (seconds : Nat)
  | get (id : String)
  | update (req : typesenseCluster)
  | terminate (id : String)
  deriving DecidableEq, Repr

/-- How an operation ends: it returns with the diagnostics it added and the
value it passed to `resp.State.Set` (if it did), or it stops at the run-time
error of indexing `Regions[0]` on an empty slice. -/
inductive Outcome where
  | returned (diags : List Diagnostic) (state : Option typesenseClusterModel)
  | outOfRange
  deriving DecidableEq, Repr

/-- One finished execution of an operation. -/
structure Run (σ : Type) where
  events : List Event
  final : σ
  outcome : Outcome
  deriving DecidableEq, Repr

/-- Result of the wait loop of `Create`: the loop either left through `break`
with the polled record or through `return` after adding a diagnostic. -/
structure Wait (σ : Type) where
  events : List Event
  final : σ
  result : Except Diagnostic typesenseCluster

/-! ## Operations -/

/-- The record literal passed to `CreateCluster` (lines 140-149). -/
def createRequest (plan : typesenseClusterModel) : typesenseCluster :=
  { Memory := plan.Memory.ValueString
    VCPU := plan.VCPU.ValueString
    Regions := [plan.Region.ValueString]
    HighAvailability := plan.HighAvailability.ValueString
    SearchDeliveryNetwork := plan.SearchDeliveryNetwork.ValueString
    HighPerformanceDisk := plan.HighPerformanceDisk.ValueString
    Name := plan.Name.ValueString
    AutoUpgradeCapacity := plan.AutoUpgradeCapacity.ValueBool }

/-- The record literal passed to `UpdateCluster` (lines 248-252). -/
def updateRequest (plan : typesenseClusterModel) : typesenseCluster :=
  { ID := plan.ID.ValueString
    Name := plan.Name.ValueString
    AutoUpgradeCapacity := plan.AutoUpgradeCapacity.ValueBool }

/-- The twelve assignments that copy a fetched record into the model
(lines 176-187, 216-227 and 269-280, identical in the three operations).
`cluster.Regions[0]` is out of range on an empty slice: `none`. -/
def setFromCluster (m : typesenseClusterModel) (cluster : typesenseCluster) :
    Option typesenseClusterModel :=
  match cluster.Regions with
  | [] => none
  | region :: _ =>
    some { m with
      ID := StringValue cluster.ID
      Name := StringValue cluster.Name
      Memory := StringValue cluster.Memory
      VCPU := StringValue cluster.VCPU
      HighPerformanceDisk := StringValue cluster.HighPerformanceDisk
      TypesenseServerVersion := StringValue cluster.TypesenseServerVersion
      HighAvailability := StringValue cluster.HighAvailability
      SearchDeliveryNetwork := StringValue cluster.SearchDeliveryNetwork
      LoadBalancing := StringValue cluster.LoadBalancing
      Region := StringValue region
      AutoUpgradeCapacity := BoolValue cluster.AutoUpgradeCapacity
      Status := StringValue cluster.Status }

/-- Diagnostic of `Create` when `CreateCluster` fails (lines 151-154). -/
def createFailed (err : ClientError) : Diagnostic :=
  ⟨"Error creating cluster", "Could not create cluster, unexpected error: " ++ err.message⟩

/-- Diagnostic of `Create` when a polling `GetCluster` fails (lines 164-167). -/
def waitFailed (err : ClientError) : Diagnostic :=
  ⟨"Error waiting for cluster state",
    "Cluster created, but could not reach expected state: " ++ err.message⟩

/-- Diagnostic of `Read` and `Update` when `GetCluster` fails (lines 210-213, 263-266). -/
def readFailed (id : String) (err : ClientError) : Diagnostic :=
  ⟨"Error Reading Typesense Cluster",
    "Could not read Typesense Cluster ID " ++ id ++ ": " ++ err.message⟩

/-- Diagnostic of `Update` when `UpdateCluster` fails (lines 254-257). -/
def updateFailed (err : ClientError) : Diagnostic :=
  ⟨"Error Updating Typesense Cluster", "Could not update cluster, unexpected error: " ++ err.message⟩

/-- The loop of `Create` (lines 160-174): sleep 8 seconds, fetch the cluster;
on error add the diagnostic and return, on status "provisioning" go round
again, otherwise leave the loop with the record. One unit of fuel per
iteration. -/
def waitLoop {σ : Type} (c : typesenseClient σ) (clusterId : String) :
    Nat → σ → Option (Wait σ)
  | 0, _ => none
  | fuel + 1, s =>
    match c.GetCluster s clusterId with
    | (.error err, s1) =>
      some ⟨[.sleep 8, .get clusterId], s1, .error (waitFailed err)⟩
    | (.ok cluster, s1) =>
      if cluster.Status = "provisioning" then
        match waitLoop c clusterId fuel s1 with
        | none => none
        | some w => some ⟨.sleep 8 :: .get clusterId :: w.events, w.final, w.result⟩
      else
        some ⟨[.sleep 8, .get clusterId], s1, .ok cluster⟩

/-- The method `clusterResource.Create` (lines 130-195). -/
def Create {σ : Type} (fuel : Nat) (c : typesenseClient σ) (s : σ)
    (plan : typesenseClusterModel) : Option (Run σ) :=
  match c.CreateCluster s (createRequest plan) with
  | (.error err, s1) =>
    some ⟨[.create (createRequest plan)], s1, .returned [createFailed err] none⟩
  | (.ok cluster, s1) =>
    match waitLoop c cluster.ID fuel s1 with
    | none => none
    | some w =>
      match w.result with
      | .error d =>
        some ⟨.create (createRequest plan) :: w.events, w.final, .returned [d] none⟩
      | .ok polled =>
        match setFromCluster plan polled with
        | none => some ⟨.create (createRequest plan) :: w.events, w.final, .outOfRange⟩
        | some st =>
          some ⟨.create (createRequest plan) :: w.events, w.final, .returned [] (some st)⟩

/-- The method `clusterResource.Read` (lines 198-235). -/
def Read {σ : Type} (c : typesenseClient σ) (s : σ) (state : typesenseClusterModel) : Run σ :=
  match c.GetCluster s state.ID.ValueString with
  | (.error err, s1) =>
    ⟨[.get state.ID.ValueString], s1, .returned [readFailed state.ID.ValueString err] none⟩
  | (.ok cluster, s1) =>
    match setFromCluster state cluster with
    | none => ⟨[.get state.ID.ValueString], s1, .outOfRange⟩
    | some st => ⟨[.get state.ID.ValueString], s1, .returned [] (some st)⟩

/-- The method `clusterResource.Update` (lines 238-287). -/
def Update {σ : Type} (c : typesenseClient σ) (s : σ) (plan : typesenseClusterModel) : Run σ :=
  match c.UpdateCluster s (updateRequest plan) with
  | (some err, s1) =>
    ⟨[.update (updateRequest plan)], s1, .returned [updateFailed err] none⟩
  | (none, s1) =>
    match c.GetCluster s1 plan.ID.ValueString with
    | (.error err, s2) =>
      ⟨[.update (updateRequest plan), .get plan.ID.ValueString], s2,
        .returned [readFailed plan.ID.ValueString err] none⟩
    | (.ok cluster, s2) =>
      match setFromCluster plan cluster with
      | none => ⟨[.update (updateRequest plan), .get plan.ID.ValueString], s2, .outOfRange⟩
      | some st =>
        ⟨[.update (updateRequest plan), .get plan.ID.ValueString], s2, .returned [] (some st)⟩

/-- Diagnostic of `Delete` when `TerminateCluster` fails (lines 302-305). -/
def deleteFailed (err : ClientError) : Diagnostic :=
  ⟨"Error Deleting Typesense Cluster", "Could not delete cluster, unexpected error: " ++ err.message⟩

/-- The method `clusterResource.Delete` (lines 290-308). -/
def Delete {σ : Type} (c : typesenseClient σ) (s : σ) (state : typesenseClusterModel) : Run σ :=
  match c.TerminateCluster s state.ID.ValueString with
  | (some err, s1) =>
    ⟨[.terminate state.ID.ValueString], s1, .returned [deleteFailed err] none⟩
  | (none, s1) => ⟨[.terminate state.ID.ValueString], s1, .returned [] none⟩

/-! ## Schema and the plan at creation -/

/-- Client state after `k` successive `GetCluster id` calls from state `s`. -/
def afterGets {σ : Type} (c : typesenseClient σ) (id : String) : Nat → σ → σ
  | 0, s => s
  | k + 1, s => afterGets c id k (c.GetCluster s id).2

/-- Result of `GetCluster id` call number `k` (counted from 0) of a series of
successive calls starting in state `s`. -/
def nthGet {σ : Type} (c : typesenseClient σ) (id : String) (k : Nat) (s : σ) :
    Except ClientError typesenseCluster :=
  (c.GetCluster (afterGets c id k s) id).1

/-- The events of `n` rounds of the wait loop: an 8 second sleep, then the get. -/
def polls (id : String) : Nat → List Event
  | 0 => []
  | n + 1 => .sleep 8 :: .get id :: polls id n

/-- The ids of the get calls of an event list, in order. -/
def getCalls : List Event → List String
  | [] => []
  | .get id :: rest => id :: getCalls rest
  | _ :: rest => getCalls rest

/-! ## Concrete clients used to exercise the operations -/

/-- Client state of `scripted`: the answers still to be given. -/
structure Script where
  createResult : Except ClientError typesenseCluster
  gets : List (Except ClientError typesenseCluster)
  updateResult : Option ClientError
  deriving Repr

/-- A client that answers from a script: create and update give the scripted
result, each get gives the next scripted answer (a missing-id error once the
script is used up). -/
def scripted : typesenseClient Script where
  CreateCluster := fun s _ => (s.createResult, s)
  GetCluster := fun s _ =>
    match s.gets with
    | [] => (.error ⟨true, "cluster not found"⟩, s)
    | r :: rest => (r, { s with gets := rest })
  UpdateCluster := fun s _ => (s.updateResult, s)
  TerminateCluster := fun s _ => (none, s)

/-- A client that keeps the created record: create assigns the id "cluster-1"
and status "provisioning" to the request and stores it; get answers
"provisioning" while `pending` polls remain and "ready" afterwards; update
overwrites name and autoUpgradeCapacity of the stored record. -/
def echoing : typesenseClient (Nat × Option typesenseCluster) where
  CreateCluster := fun s req =>
    (.ok { req with ID := "cluster-1", Status := "provisioning" },
      (s.1, some { req with ID := "cluster-1", Status := "provisioning" }))
  GetCluster := fun s id =>
    match s.2 with
    | none => (.error ⟨true, "cluster not found"⟩, s)
    | some r =>
      if r.ID = id then
        match s.1 with
        | 0 => (.ok { r with Status := "ready" }, s)
        | n + 1 => (.ok r, (n, s.2))
      else (.error ⟨true, "cluster not found"⟩, s)
  UpdateCluster := fun s req =>
    match s.2 with
    | none => (some ⟨true, "cluster not found"⟩, s)
    | some r =>
      (none, (s.1, some { r with Name := req.Name, AutoUpgradeCapacity := req.AutoUpgradeCapacity }))
  TerminateCluster := fun s _ => (none, (s.1, none))

/-- The plan of the end-to-end scenario: memory "1", vcpu "1", region "us-east-1". -/
def planEast : typesenseClusterModel :=
  { ID := .unknown
    Name := .null
    Memory := .known "1"
    VCPU := .known "1"
    HighPerformanceDisk := .known "no"
    TypesenseServerVersion := .unknown
    HighAvailability := .known "no"
    SearchDeliveryNetwork := .unknown
    LoadBalancing := .unknown
    Region := .known "us-east-1"
    AutoUpgradeCapacity := .known false
    Status := .unknown }

/-- A ready record as the remote system would return it for `planEast`. -/
def readyEast : typesenseCluster :=
  { ID := "cluster-1"
    Memory := "1"
    VCPU := "1"
    Regions := ["us-east-1"]
    HighAvailability := "no"
    HighPerformanceDisk := "no"
    Status := "ready" }


/-- The record `echoing` stores when `planEast` is created. -/
def storedEast : typesenseCluster :=
  { createRequest planEast with ID := "cluster-1", Status := "provisioning" }

/-- The snapshot of the ready record `echoing` returns for `planEast`. -/
def snapEast : typesenseClusterModel :=
  { ID := .known "cluster-1"
    Name := .known ""
    Memory := .known "1"
    VCPU := .known "1"
    HighPerformanceDisk := .known "no"
    TypesenseServerVersion := .known ""
    HighAvailability := .known "no"
    SearchDeliveryNetwork := .known ""
    LoadBalancing := .known ""
    Region := .known "us-east-1"
    AutoUpgradeCapacity := .known false
    Status := .known "ready" }

/-- The run of `Create` for `planEast` against `echoing` that ends at poll number `n`. -/
def runEast (n : Nat) : Run (Nat × Option typesenseCluster) :=
  ⟨.create (createRequest planEast) :: polls "cluster-1" n, (0, some storedEast),
    .returned [] (some snapEast)⟩

/-- A record whose memory, vcpu, region and id are not the ones asked for / assigned. -/
def driftedRecord : typesenseCluster :=
  { ID := "cluster-9"
    Memory := "2"
    VCPU := "4"
    Regions := ["eu-west-1"]
    Status := "ready" }

/-- The snapshot of `driftedRecord`. -/
def driftedSnap : typesenseClusterModel :=
  { ID := .known "cluster-9"
    Name := .known ""
    Memory := .known "2"
    VCPU := .known "4"
    HighPerformanceDisk := .known ""
    TypesenseServerVersion := .known ""
    HighAvailability := .known ""
    SearchDeliveryNetwork := .known ""
    LoadBalancing := .known ""
    Region := .known "eu-west-1"
    AutoUpgradeCapacity := .known false
    Status := .known "ready" }

/-- Script: create assigns the id "cluster-1", the first poll answers `driftedRecord`. -/
def driftScript : Script :=
  ⟨.ok { ID := "cluster-1", Status := "provisioning" }, [.ok driftedRecord], none⟩

/-- Script: create assigns the id "cluster-1", the first poll answers a ready
record without any region. -/
def bareReadyScript : Script :=
  ⟨.ok { ID := "cluster-1", Status := "provisioning" },
    [.ok { ID := "cluster-1", Memory := "1", VCPU := "1", Status := "ready" }], none⟩

/-- Script: create assigns the id "cluster-1", the first poll answers
"provisioning", the second a record in status "failed" without any region. -/
def failedBareScript : Script :=
  ⟨.ok { ID := "cluster-1", Status := "provisioning" },
    [.ok { ID := "cluster-1", Regions := ["us-east-1"], Status := "provisioning" },
     .ok { ID := "cluster-1", Status := "failed" }], none⟩

/-- Script: create fails. -/
def createErrorScript : Script :=
  ⟨.error ⟨false, "quota exceeded"⟩, [], none⟩

/-- Script: create assigns the id "cluster-1", the first poll answers
"provisioning", the second fails. -/
def pollErrorScript : Script :=
  ⟨.ok { ID := "cluster-1", Status := "provisioning" },
    [.ok { ID := "cluster-1", Regions := ["us-east-1"], Status := "provisioning" },
     .error ⟨false, "connection reset"⟩], none⟩

/-- A plan for an update of the cluster "cluster-1": new name, and a changed memory. -/
def planRename : typesenseClusterModel :=
  { planEast with
    ID := .known "cluster-1"
    Name := .known "search"
    Memory := .known "8"
    AutoUpgradeCapacity := .known true }

/-- Script: update succeeds, the follow-up get answers a record without any region. -/
def updateBareScript : Script :=
  ⟨.ok {}, [.ok { ID := "cluster-1", Name := "search", AutoUpgradeCapacity := true,
                  Status := "ready" }], none⟩

/-- Script: update fails. -/
def updateErrorScript : Script :=
  ⟨.ok {}, [], some ⟨false, "forbidden"⟩⟩

/-- Script: the only get answers with an error that reports the id as missing. -/
def missingScript : Script :=
  ⟨.ok {}, [.error ⟨true, "request failed"⟩], none⟩

/-- Script: the only get answers with an error of any other kind, same message. -/
def brokenScript : Script :=
  ⟨.ok {}, [.error ⟨false, "request failed"⟩], none⟩

/-- A prior state for the cluster "cluster-1" with stale values in every field. -/
def staleState : typesenseClusterModel :=
  { ID := .known "cluster-1"
    Name := .known "old"
    Memory := .known "0.5"
    VCPU := .known "2"
    HighPerformanceDisk := .known "yes"
    TypesenseServerVersion := .known "0.1"
    HighAvailability := .known "yes"
    SearchDeliveryNetwork := .known "on"
    LoadBalancing := .known "round_robin"
    Region := .known "eu-west-1"
    AutoUpgradeCapacity := .known true
    Status := .known "provisioning" }
/-! ## The wait loop -/

theorem nthGet_zero {σ : Type} (c : typesenseClient σ) (id : String) (s : σ) :
    nthGet c id 0 s = (c.GetCluster s id).1 := rfl

theorem nthGet_succ {σ : Type} (c : typesenseClient σ) (id : String) (k : Nat) (s : σ) :
    nthGet c id (k + 1) s = nthGet c id k (c.GetCluster s id).2 := rfl

theorem afterGets_succ {σ : Type} (c : typesenseClient σ) (id : String) (k : Nat) (s : σ) :
    afterGets c id (k + 1) s = afterGets c id k (c.GetCluster s id).2 := rfl

/-- Whatever the loop returns, it returns after some `n + 1` rounds within the
fuel: the first `n` polls answered "provisioning" and poll `n` either failed or
gave the record the loop leaves with. -/
theorem waitLoop_sound {σ : Type} (c : typesenseClient σ) (id : String) :
    ∀ (fuel : Nat) (s : σ) (w : Wait σ), waitLoop c id fuel s = some w →
      ∃ n, n < fuel ∧
        (∀ k, k < n → ∃ p, nthGet c id k s = .ok p ∧ p.Status = "provisioning") ∧
        w.events = polls id (n + 1) ∧ w.final = afterGets c id (n + 1) s ∧
        ((∃ e, nthGet c id n s = .error e ∧ w.result = .error (waitFailed e)) ∨
         (∃ r, nthGet c id n s = .ok r ∧ r.Status ≠ "provisioning" ∧ w.result = .ok r)) := by
  intro fuel
  induction fuel with
  | zero => intro s w h; simp [waitLoop] at h
  | succ fuel ih =>
    intro s w h
    rcases hg : c.GetCluster s id with ⟨res, s1⟩
    cases res with
    | error e =>
      simp only [waitLoop, hg, Option.some.injEq] at h
      subst h
      refine ⟨0, Nat.succ_pos _, ?_, rfl, ?_, Or.inl ⟨e, ?_, rfl⟩⟩
      · intro k hk; omega
      · simp [afterGets, hg]
      · simp [nthGet_zero, hg]
    | ok cl =>
      by_cases hp : cl.Status = "provisioning"
      · simp only [waitLoop, hg, hp, if_true] at h
        cases hw : waitLoop c id fuel s1 with
        | none => simp [hw] at h
        | some w1 =>
          simp only [hw, Option.some.injEq] at h
          subst h
          obtain ⟨n, hn, hprov, hev, hfin, hres⟩ := ih s1 w1 hw
          refine ⟨n + 1, Nat.succ_lt_succ hn, ?_, ?_, ?_, ?_⟩
          · intro k hk
            cases k with
            | zero => exact ⟨cl, by simp [nthGet_zero, hg], hp⟩
            | succ k =>
              have := hprov k (by omega)
              simpa [nthGet_succ, hg] using this
          · simp [polls, hev]
          · simp [afterGets_succ, hg, hfin]
          · simpa [nthGet_succ, hg] using hres
      · simp only [waitLoop, hg, hp, if_false, Option.some.injEq] at h
        subst h
        refine ⟨0, Nat.succ_pos _, ?_, rfl, ?_, Or.inr ⟨cl, ?_, hp, rfl⟩⟩
        · intro k hk; omega
        · simp [afterGets, hg]
        · simp [nthGet_zero, hg]

/-- With the first `n` polls answering "provisioning" and poll `n` not doing so,
any fuel of at least `n + 1` makes the loop return, after exactly `n + 1` rounds. -/
theorem waitLoop_reaches {σ : Type} (c : typesenseClient σ) (id : String) (extra : Nat) :
    ∀ (n : Nat) (s : σ),
      (∀ k, k < n → ∃ p, nthGet c id k s = .ok p ∧ p.Status = "provisioning") →
      (∀ p, nthGet c id n s = .ok p → p.Status ≠ "provisioning") →
      waitLoop c id (n + 1 + extra) s =
        some ⟨polls id (n + 1), afterGets c id (n + 1) s,
          (nthGet c id n s).mapError waitFailed⟩ := by
  intro n
  induction n with
  | zero =>
    intro s _ hstop
    have hf : 0 + 1 + extra = extra + 1 := by omega
    rw [hf]
    rcases hg : c.GetCluster s id with ⟨res, s1⟩
    cases res with
    | error e => simp [waitLoop, hg, nthGet_zero, afterGets, polls, Except.mapError]
    | ok cl =>
      have hp : cl.Status ≠ "provisioning" := hstop cl (by simp [nthGet_zero, hg])
      simp [waitLoop, hg, hp, nthGet_zero, afterGets, polls, Except.mapError]
  | succ n ih =>
    intro s hprov hstop
    have hf : n + 1 + 1 + extra = (n + 1 + extra) + 1 := by omega
    rw [hf]
    obtain ⟨p, hp0, hps⟩ := hprov 0 (Nat.succ_pos _)
    rcases hg : c.GetCluster s id with ⟨res, s1⟩
    have hres : res = .ok p := by simpa [nthGet_zero, hg] using hp0
    subst hres
    have hrec := ih s1
      (fun k hk => by simpa [nthGet_succ, hg] using hprov (k + 1) (by omega))
      (fun q hq => hstop q (by simpa [nthGet_succ, hg] using hq))
    simp [waitLoop, hg, hps, hrec, nthGet_succ, afterGets_succ, polls]

theorem getCalls_polls (id : String) (n : Nat) : getCalls (polls id n) = List.replicate n id := by
  induction n with
  | zero => rfl
  | succ n ih => simp [polls, getCalls, ih, List.replicate_succ]

/-! ## `Create` as a whole -/

/-- Every finished run of `Create` is of one of four shapes. -/
theorem create_sound {σ : Type} (c : typesenseClient σ) (s : σ) (plan : typesenseClusterModel)
    (fuel : Nat) (run : Run σ) (h : Create fuel c s plan = some run) :
    (∃ e s1, c.CreateCluster s (createRequest plan) = (.error e, s1) ∧
      run = ⟨[.create (createRequest plan)], s1, .returned [createFailed e] none⟩) ∨
    (∃ created s1 n, c.CreateCluster s (createRequest plan) = (.ok created, s1) ∧ n < fuel ∧
      (∀ k, k < n → ∃ p, nthGet c created.ID k s1 = .ok p ∧ p.Status = "provisioning") ∧
      run.events = .create (createRequest plan) :: polls created.ID (n + 1) ∧
      run.final = afterGets c created.ID (n + 1) s1 ∧
      ((∃ e, nthGet c created.ID n s1 = .error e ∧
          run.outcome = .returned [waitFailed e] none) ∨
       (∃ r, nthGet c created.ID n s1 = .ok r ∧ r.Status ≠ "provisioning" ∧
          ((r.Regions = [] ∧ setFromCluster plan r = none ∧ run.outcome = .outOfRange) ∨
           (∃ snap, r.Regions ≠ [] ∧ setFromCluster plan r = some snap ∧
              run.outcome = .returned [] (some snap)))))) := by
  rcases hc : c.CreateCluster s (createRequest plan) with ⟨res, s1⟩
  cases res with
  | error e =>
    left
    simp only [Create, hc, Option.some.injEq] at h
    exact ⟨e, s1, rfl, h.symm⟩
  | ok created =>
    right
    simp only [Create, hc] at h
    cases hw : waitLoop c created.ID fuel s1 with
    | none => simp [hw] at h
    | some w =>
      simp only [hw] at h
      obtain ⟨n, hn, hprov, hev, hfin, hres⟩ := waitLoop_sound c created.ID fuel s1 w hw
      refine ⟨created, s1, n, rfl, hn, hprov, ?_⟩
      rcases hres with ⟨e, hge, hwr⟩ | ⟨r, hgr, hst, hwr⟩
      · simp only [hwr, Option.some.injEq] at h
        subst h
        exact ⟨by simp [hev], hfin, Or.inl ⟨e, hge, rfl⟩⟩
      · simp only [hwr] at h
        cases hm : setFromCluster plan r with
        | none =>
          simp only [hm, Option.some.injEq] at h
          subst h
          have hreg : r.Regions = [] := by
            cases hr : r.Regions with
            | nil => rfl
            | cons a t => simp [setFromCluster, hr] at hm
          exact ⟨by simp [hev], hfin, Or.inr ⟨r, hgr, hst, Or.inl ⟨hreg, hm, rfl⟩⟩⟩
        | some snap =>
          simp only [hm, Option.some.injEq] at h
          subst h
          have hreg : r.Regions ≠ [] := by
            intro hr
            simp [setFromCluster, hr] at hm
          exact ⟨by simp [hev], hfin, Or.inr ⟨r, hgr, hst, Or.inr ⟨snap, hreg, hm, rfl⟩⟩⟩

/-- When poll `n` fails after `n` provisioning answers, `Create` returns with
the wait diagnostic for every fuel of at least `n + 1`. -/
theorem create_reaches_error {σ : Type} (c : typesenseClient σ) (s : σ)
    (plan : typesenseClusterModel) (created : typesenseCluster) (s1 : σ) (n extra : Nat)
    (e : ClientError)
    (hc : c.CreateCluster s (createRequest plan) = (.ok created, s1))
    (hprov : ∀ k, k < n → ∃ p, nthGet c created.ID k s1 = .ok p ∧ p.Status = "provisioning")
    (hg : nthGet c created.ID n s1 = .error e) :
    Create (n + 1 + extra) c s plan =
      some ⟨.create (createRequest plan) :: polls created.ID (n + 1),
        afterGets c created.ID (n + 1) s1, .returned [waitFailed e] none⟩ := by
  have hw := waitLoop_reaches c created.ID extra n s1 hprov (by intro p hp; simp [hg] at hp)
  simp [Create, hc, hw, hg, Except.mapError]

/-- When poll `n` gives a record that is not provisioning after `n` provisioning
answers, `Create` maps that record for every fuel of at least `n + 1`. -/
theorem create_reaches_ok {σ : Type} (c : typesenseClient σ) (s : σ)
    (plan : typesenseClusterModel) (created : typesenseCluster) (s1 : σ) (n extra : Nat)
    (r : typesenseCluster)
    (hc : c.CreateCluster s (createRequest plan) = (.ok created, s1))
    (hprov : ∀ k, k < n → ∃ p, nthGet c created.ID k s1 = .ok p ∧ p.Status = "provisioning")
    (hg : nthGet c created.ID n s1 = .ok r) (hst : r.Status ≠ "provisioning") :
    Create (n + 1 + extra) c s plan =
      some ⟨.create (createRequest plan) :: polls created.ID (n + 1),
        afterGets c created.ID (n + 1) s1,
        match setFromCluster plan r with
        | none => .outOfRange
        | some snap => .returned [] (some snap)⟩ := by
  have hw := waitLoop_reaches c created.ID extra n s1 hprov
    (by intro p hp; simp [hg] at hp; subst hp; exact hst)
  simp only [Create, hc, hw, hg, Except.mapError]
  cases setFromCluster plan r <;> rfl

/-- The mapping is defined exactly on records with a first region. -/
theorem setFromCluster_isSome (m : typesenseClusterModel) (r : typesenseCluster)
    (hne : r.Regions ≠ []) :
    setFromCluster m r = some
      { ID := StringValue r.ID
        Name := StringValue r.Name
        Memory := StringValue r.Memory
        VCPU := StringValue r.VCPU
        HighPerformanceDisk := StringValue r.HighPerformanceDisk
        TypesenseServerVersion := StringValue r.TypesenseServerVersion
        HighAvailability := StringValue r.HighAvailability
        SearchDeliveryNetwork := StringValue r.SearchDeliveryNetwork
        LoadBalancing := StringValue r.LoadBalancing
        Region := StringValue (r.Regions.head hne)
        AutoUpgradeCapacity := BoolValue r.AutoUpgradeCapacity
        Status := StringValue r.Status } := by
  obtain ⟨id, nm, mem, cpu, regions, ha, sdn, hpd, lb, ver, auc, st⟩ := r
  cases regions with
  | nil => exact absurd rfl hne
  | cons a t => rfl

theorem setFromCluster_nil (m : typesenseClusterModel) (r : typesenseCluster)
    (hnil : r.Regions = []) : setFromCluster m r = none := by
  simp [setFromCluster, hnil]


/-! ## `Read` and `Update` case by case -/

theorem read_error {σ : Type} (c : typesenseClient σ) (s : σ) (state : typesenseClusterModel)
    (e : ClientError) (s1 : σ) (hg : c.GetCluster s state.ID.ValueString = (.error e, s1)) :
    Read c s state =
      ⟨[.get state.ID.ValueString], s1, .returned [readFailed state.ID.ValueString e] none⟩ := by
  simp only [Read, hg]

theorem read_ok {σ : Type} (c : typesenseClient σ) (s : σ) (state : typesenseClusterModel)
    (r : typesenseCluster) (s1 : σ) (hg : c.GetCluster s state.ID.ValueString = (.ok r, s1)) :
    Read c s state =
      ⟨[.get state.ID.ValueString], s1,
        match setFromCluster state r with
        | none => .outOfRange
        | some snap => .returned [] (some snap)⟩ := by
  simp only [Read, hg]
  cases setFromCluster state r <;> rfl

theorem update_error {σ : Type} (c : typesenseClient σ) (s : σ) (plan : typesenseClusterModel)
    (e : ClientError) (s1 : σ) (hu : c.UpdateCluster s (updateRequest plan) = (some e, s1)) :
    Update c s plan =
      ⟨[.update (updateRequest plan)], s1, .returned [updateFailed e] none⟩ := by
  simp only [Update, hu]

theorem update_read_error {σ : Type} (c : typesenseClient σ) (s : σ)
    (plan : typesenseClusterModel) (s1 : σ) (e : ClientError) (s2 : σ)
    (hu : c.UpdateCluster s (updateRequest plan) = (none, s1))
    (hg : c.GetCluster s1 plan.ID.ValueString = (.error e, s2)) :
    Update c s plan =
      ⟨[.update (updateRequest plan), .get plan.ID.ValueString], s2,
        .returned [readFailed plan.ID.ValueString e] none⟩ := by
  simp only [Update, hu, hg]

theorem update_read_ok {σ : Type} (c : typesenseClient σ) (s : σ)
    (plan : typesenseClusterModel) (s1 : σ) (r : typesenseCluster) (s2 : σ)
    (hu : c.UpdateCluster s (updateRequest plan) = (none, s1))
    (hg : c.GetCluster s1 plan.ID.ValueString = (.ok r, s2)) :
    Update c s plan =
      ⟨[.update (updateRequest plan), .get plan.ID.ValueString], s2,
        match setFromCluster plan r with
        | none => .outOfRange
        | some snap => .returned [] (some snap)⟩ := by
  simp only [Update, hu, hg]
  cases setFromCluster plan r <;> rfl

/-- The events of `Update`: the update call first, then at most one get. -/
theorem update_events {σ : Type} (c : typesenseClient σ) (s : σ) (plan : typesenseClusterModel) :
    (Update c s plan).events = [.update (updateRequest plan)] ∨
    (Update c s plan).events = [.update (updateRequest plan), .get plan.ID.ValueString] := by
  rcases hu : c.UpdateCluster s (updateRequest plan) with ⟨res, s1⟩
  cases res with
  | some e => left; rw [update_error c s plan e s1 hu]
  | none =>
    right
    rcases hg : c.GetCluster s1 plan.ID.ValueString with ⟨g, s2⟩
    cases g with
    | error e => rw [update_read_error c s plan s1 e s2 hu hg]
    | ok r => rw [update_read_ok c s plan s1 r s2 hu hg]

theorem create_not_mem_polls (id : String) (n : Nat) (req : typesenseCluster) :
    Event.create req ∉ polls id n := by
  induction n with
  | zero => simp [polls]
  | succ n ih => simp [polls, ih]

theorem createFailed_ne_waitFailed (e1 e2 : ClientError) : createFailed e1 ≠ waitFailed e2 := by
  intro h
  have hs := congrArg Diagnostic.summary h
  simp only [createFailed, waitFailed] at hs
  exact absurd hs (by decide)

/-! ## Events of unfinished runs, and plans at creation -/

/-- C1: whenever `Create` finishes by setting a state snapshot, the snapshot's
status is not "provisioning": the snapshot is the mapping of the first polled
record whose status differs from "provisioning" (every earlier poll answered
"provisioning"), and carries that record's status whatever it is. -/
theorem create_snapshot_not_provisioning {σ : Type} (fuel : Nat) (c : typesenseClient σ)
    (s : σ) (plan : typesenseClusterModel) (run : Run σ) (diags : List Diagnostic)
    (snap : typesenseClusterModel)
    (h : Create fuel c s plan = some run)
    (hs : run.outcome = .returned diags (some snap)) :
    snap.Status ≠ StringValue "provisioning" ∧
    ∃ created s1 n r,
      c.CreateCluster s (createRequest plan) = (.ok created, s1) ∧
      (∀ k, k < n → ∃ p, nthGet c created.ID k s1 = .ok p ∧ p.Status = "provisioning") ∧
      nthGet c created.ID n s1 = .ok r ∧ r.Status ≠ "provisioning" ∧
      setFromCluster plan r = some snap ∧ snap.Status = StringValue r.Status := by
  rcases create_sound c s plan fuel run h with ⟨e, s1, _, hrun⟩ | ⟨created, s1, n, hc, _, hprov, _, _, hres⟩
  · subst hrun
    simp at hs
  · rcases hres with ⟨e, _, hout⟩ | ⟨r, hg, hst, ⟨_, _, hout⟩ | ⟨snap1, hreg, hm, hout⟩⟩
    · rw [hout] at hs
      simp at hs
    · rw [hout] at hs
      cases hs
    · rw [hout] at hs
      have hsnap : snap1 = snap := by
        simp only [Outcome.returned.injEq, Option.some.injEq] at hs
        exact hs.2
      subst hsnap
      have hstat : snap1.Status = StringValue r.Status := by
        have := setFromCluster_isSome plan r hreg
        rw [hm] at this
        simp only [Option.some.injEq] at this
        rw [this]
      refine ⟨?_, created, s1, n, r, hc, hprov, hg, hst, hm, hstat⟩
      rw [hstat]
      intro hcon
      simp only [StringValue, TfString.known.injEq] at hcon
      exact hst hcon

/-- C1, exercised: two provisioning polls, then ready. -/
theorem create_snapshot_not_provisioning_witness :
    Create 3 echoing (2, none) planEast = some (runEast 3) ∧
    (runEast 3).outcome = .returned [] (some snapEast) ∧
    snapEast.Status ≠ StringValue "provisioning" :=
  ⟨rfl, rfl,
    (create_snapshot_not_provisioning 3 echoing (2, none) planEast (runEast 3) [] snapEast
      rfl rfl).1⟩

/-- C2, refuted as stated: `Create` returns a snapshot whose memory, vcpu and
region are not those of the plan and whose id is not the one assigned by the
create call ("cluster-1"), because the polled record carries other values. -/
theorem create_snapshot_differs_from_plan :
    (scripted.CreateCluster driftScript (createRequest planEast)).1 =
      .ok { ID := "cluster-1", Status := "provisioning" } ∧
    Create 1 scripted driftScript planEast =
      some ⟨[.create (createRequest planEast), .sleep 8, .get "cluster-1"],
        { driftScript with gets := [] }, .returned [] (some driftedSnap)⟩ ∧
    driftedSnap.Memory ≠ planEast.Memory ∧ driftedSnap.VCPU ≠ planEast.VCPU ∧
    driftedSnap.Region ≠ planEast.Region ∧ driftedSnap.ID ≠ StringValue "cluster-1" :=
  ⟨rfl, rfl, by decide, by decide, by decide, by decide⟩

/-- C2, amended: whenever `Create` returns a state snapshot, the snapshot's id,
memory, vcpu and region are the id, memory, vcpu and first region of the first
polled record whose status is not "provisioning"; so they are the plan's memory,
vcpu and region and the id assigned by the create call exactly when that record
carries those values. -/
theorem create_snapshot_fields_from_polled_record {σ : Type} (fuel : Nat)
    (c : typesenseClient σ) (s : σ) (plan : typesenseClusterModel) (run : Run σ)
    (diags : List Diagnostic) (snap : typesenseClusterModel)
    (h : Create fuel c s plan = some run)
    (hs : run.outcome = .returned diags (some snap)) :
    ∃ created s1 n r region rest,
      c.CreateCluster s (createRequest plan) = (.ok created, s1) ∧
      (∀ k, k < n → ∃ p, nthGet c created.ID k s1 = .ok p ∧ p.Status = "provisioning") ∧
      nthGet c created.ID n s1 = .ok r ∧ r.Status ≠ "provisioning" ∧
      r.Regions = region :: rest ∧
      snap.ID = StringValue r.ID ∧ snap.Memory = StringValue r.Memory ∧
      snap.VCPU = StringValue r.VCPU ∧ snap.Region = StringValue region ∧
      (snap.ID = StringValue created.ID ↔ r.ID = created.ID) ∧
      (snap.Memory = StringValue plan.Memory.ValueString ↔ r.Memory = plan.Memory.ValueString) ∧
      (snap.VCPU = StringValue plan.VCPU.ValueString ↔ r.VCPU = plan.VCPU.ValueString) ∧
      (snap.Region = StringValue plan.Region.ValueString ↔ region = plan.Region.ValueString) := by
  rcases create_sound c s plan fuel run h with ⟨e, s1, _, hrun⟩ | ⟨created, s1, n, hc, _, hprov, _, _, hres⟩
  · subst hrun
    simp at hs
  · rcases hres with ⟨e, _, hout⟩ | ⟨r, hg, hst, ⟨_, _, hout⟩ | ⟨snap1, hreg, hm, hout⟩⟩
    · rw [hout] at hs
      simp at hs
    · rw [hout] at hs
      cases hs
    · rw [hout] at hs
      have hsnap : snap1 = snap := by
        simp only [Outcome.returned.injEq, Option.some.injEq] at hs
        exact hs.2
      subst hsnap
      obtain ⟨region, rest, hr⟩ := List.exists_cons_of_ne_nil hreg
      have hm2 := hm
      simp only [setFromCluster, hr, Option.some.injEq] at hm2
      refine ⟨created, s1, n, r, region, rest, hc, hprov, hg, hst, hr, ?_, ?_, ?_, ?_, ?_, ?_,
        ?_, ?_⟩ <;> rw [← hm2] <;> simp [StringValue]

/-- C2 amended, exercised: against `echoing` the polled record carries the
plan's values and the assigned id, and so does the snapshot. -/
theorem create_snapshot_fields_from_polled_record_witness :
    Create 1 echoing (0, none) planEast = some (runEast 1) ∧
    (runEast 1).outcome = .returned [] (some snapEast) ∧
    ∃ created s1 n r region rest,
      echoing.CreateCluster (0, none) (createRequest planEast) = (.ok created, s1) ∧
      (∀ k, k < n → ∃ p, nthGet echoing created.ID k s1 = .ok p ∧ p.Status = "provisioning") ∧
      nthGet echoing created.ID n s1 = .ok r ∧ r.Status ≠ "provisioning" ∧
      r.Regions = region :: rest ∧
      snapEast.ID = StringValue r.ID ∧ snapEast.Memory = StringValue r.Memory ∧
      snapEast.VCPU = StringValue r.VCPU ∧ snapEast.Region = StringValue region ∧
      (snapEast.ID = StringValue created.ID ↔ r.ID = created.ID) ∧
      (snapEast.Memory = StringValue planEast.Memory.ValueString ↔
        r.Memory = planEast.Memory.ValueString) ∧
      (snapEast.VCPU = StringValue planEast.VCPU.ValueString ↔
        r.VCPU = planEast.VCPU.ValueString) ∧
      (snapEast.Region = StringValue planEast.Region.ValueString ↔
        region = planEast.Region.ValueString) :=
  ⟨rfl, rfl,
    create_snapshot_fields_from_polled_record 1 echoing (0, none) planEast (runEast 1) []
      snapEast rfl rfl⟩

/-- C3: for every plan, the record `Update` sends to the client's update
primitive (the first event of the run, and its only update event) carries the
plan's id, name and autoUpgradeCapacity and the zero value in memory, vcpu,
regions, highAvailability, highPerformanceDisk, searchDeliveryNetwork,
loadBalancing, serverVersion and status; a plan that differs from it in any of
the other nine fields makes `Update` send the same record. -/
theorem update_sends_only_mutable_fields {σ : Type} (c : typesenseClient σ) (s : σ)
    (plan : typesenseClusterModel) :
    ∃ req rest,
      (Update c s plan).events = .update req :: rest ∧
      (∀ other, Event.update other ∉ rest) ∧
      req.ID = plan.ID.ValueString ∧ req.Name = plan.Name.ValueString ∧
      req.AutoUpgradeCapacity = plan.AutoUpgradeCapacity.ValueBool ∧
      req.Memory = "" ∧ req.VCPU = "" ∧ req.Regions = [] ∧ req.HighAvailability = "" ∧
      req.HighPerformanceDisk = "" ∧ req.SearchDeliveryNetwork = "" ∧
      req.LoadBalancing = "" ∧ req.TypesenseServerVersion = "" ∧ req.Status = "" ∧
      ∀ (memory vcpu disk version availability network balancing region status : TfString),
        (Update c s
          { plan with
            Memory := memory
            VCPU := vcpu
            HighPerformanceDisk := disk
            TypesenseServerVersion := version
            HighAvailability := availability
            SearchDeliveryNetwork := network
            LoadBalancing := balancing
            Region := region
            Status := status }).events.head? = some (.update req) := by
  have key : ∀ p : typesenseClusterModel, ∃ rest,
      (Update c s p).events = .update (updateRequest p) :: rest ∧
      ∀ other, Event.update other ∉ rest := by
    intro p
    rcases update_events c s p with h | h
    · exact ⟨[], h, by simp⟩
    · exact ⟨[.get p.ID.ValueString], h, by simp⟩
  obtain ⟨rest, hev, hno⟩ := key plan
  refine ⟨updateRequest plan, rest, hev, hno, rfl, rfl, rfl, rfl, rfl, rfl, rfl, rfl, rfl, rfl,
    rfl, rfl, ?_⟩
  intro memory vcpu disk version availability network balancing region status
  obtain ⟨rest2, hev2, _⟩ := key
    { plan with
      Memory := memory
      VCPU := vcpu
      HighPerformanceDisk := disk
      TypesenseServerVersion := version
      HighAvailability := availability
      SearchDeliveryNetwork := network
      LoadBalancing := balancing
      Region := region
      Status := status }
  rw [hev2]
  rfl

/-- C3, exercised: a plan with a changed memory ("8") sends id, name and
autoUpgradeCapacity only. -/
theorem update_sends_only_mutable_fields_witness :
    planRename.Memory = .known "8" ∧
    ∃ req rest,
      (Update scripted updateErrorScript planRename).events = .update req :: rest ∧
      (∀ other, Event.update other ∉ rest) ∧
      req.ID = "cluster-1" ∧ req.Name = "search" ∧ req.AutoUpgradeCapacity = true ∧
      req.Memory = "" ∧ req.VCPU = "" ∧ req.Regions = [] :=
  ⟨rfl,
    match update_sends_only_mutable_fields scripted updateErrorScript planRename with
    | ⟨req, rest, h1, h2, h3, h4, h5, h6, h7, h8, _⟩ =>
      ⟨req, rest, h1, h2, h3, h4, h5, h6, h7, h8⟩⟩

/-- C4, refuted as stated: create succeeds and the first get returns a record
with status "ready" (the case N = 0), yet `Create` does not return a snapshot:
the record has no region and the run stops at `Regions[0]`, whatever the fuel. -/
theorem create_ready_without_region :
    (scripted.CreateCluster bareReadyScript (createRequest planEast)).1 =
      .ok { ID := "cluster-1", Status := "provisioning" } ∧
    nthGet scripted "cluster-1" 0 bareReadyScript =
      .ok { ID := "cluster-1", Memory := "1", VCPU := "1", Status := "ready" } ∧
    Create 1 scripted bareReadyScript planEast =
      some ⟨[.create (createRequest planEast), .sleep 8, .get "cluster-1"],
        { bareReadyScript with gets := [] }, .outOfRange⟩ ∧
    Create 50 scripted bareReadyScript planEast =
      some ⟨[.create (createRequest planEast), .sleep 8, .get "cluster-1"],
        { bareReadyScript with gets := [] }, .outOfRange⟩ :=
  ⟨rfl, rfl, rfl, rfl⟩

/-- C4, amended: for every N and every plan, against a client whose create
succeeds and whose get answers "provisioning" on the first N calls and a record
with status "ready" and a non-empty regions sequence on call N+1, `Create`
(given fuel for at least N+1 rounds) performs exactly N+1 get calls, all with
the id returned by create, each right after an 8 second sleep, and returns with
no diagnostic and the snapshot of the (N+1)th record. In particular, for N = 0,
the plan with memory "1", vcpu "1", region "us-east-1" and the client `echoing`,
exactly one get is performed and the snapshot's region is "us-east-1". -/
theorem create_converges_after_provisioning {σ : Type} (N extra : Nat)
    (plan : typesenseClusterModel) (c : typesenseClient σ) (s s1 : σ)
    (created r : typesenseCluster)
    (hc : c.CreateCluster s (createRequest plan) = (.ok created, s1))
    (hprov : ∀ k, k < N → ∃ p, nthGet c created.ID k s1 = .ok p ∧ p.Status = "provisioning")
    (hready : nthGet c created.ID N s1 = .ok r) (hst : r.Status = "ready")
    (hreg : r.Regions ≠ []) :
    (∃ run snap,
      Create (N + 1 + extra) c s plan = some run ∧
      run.events = .create (createRequest plan) :: polls created.ID (N + 1) ∧
      getCalls run.events = List.replicate (N + 1) created.ID ∧
      run.final = afterGets c created.ID (N + 1) s1 ∧
      run.outcome = .returned [] (some snap) ∧
      setFromCluster plan r = some snap ∧
      snap.Region = StringValue (r.Regions.head hreg) ∧ snap.Status = StringValue "ready") ∧
    (Create 1 echoing (0, none) planEast = some (runEast 1) ∧
      getCalls (runEast 1).events = ["cluster-1"] ∧
      (runEast 1).outcome = .returned [] (some snapEast) ∧
      snapEast.Region = StringValue "us-east-1") := by
  refine ⟨?_, rfl, rfl, rfl, rfl⟩
  have hne : r.Status ≠ "provisioning" := by rw [hst]; decide
  have hrun := create_reaches_ok c s plan created s1 N extra r hc hprov hready hne
  have hsnap := setFromCluster_isSome plan r hreg
  rw [hsnap] at hrun
  refine ⟨_, _, hrun, rfl, ?_, rfl, rfl, hsnap, rfl, ?_⟩
  · simp [getCalls, getCalls_polls, List.replicate_succ]
  · simp [hst]

/-- C4 amended, exercised: two provisioning polls, then ready, three gets. -/
theorem create_converges_after_provisioning_witness :
    echoing.CreateCluster (2, none) (createRequest planEast) = (.ok storedEast, (2, some storedEast)) ∧
    nthGet echoing "cluster-1" 0 (2, some storedEast) = .ok storedEast ∧
    nthGet echoing "cluster-1" 1 (2, some storedEast) = .ok storedEast ∧
    nthGet echoing "cluster-1" 2 (2, some storedEast) = .ok { storedEast with Status := "ready" } ∧
    ∃ run snap,
      Create 3 echoing (2, none) planEast = some run ∧
      run.events = .create (createRequest planEast) :: polls "cluster-1" 3 ∧
      getCalls run.events = List.replicate 3 "cluster-1" ∧
      run.outcome = .returned [] (some snap) ∧
      snap.Status = StringValue "ready" :=
  ⟨rfl, rfl, rfl, rfl,
    have h := (create_converges_after_provisioning 2 0 planEast echoing (2, none)
      (2, some storedEast) storedEast { storedEast with Status := "ready" } rfl
      (fun k hk => ⟨storedEast, by
        have hk2 : k = 0 ∨ k = 1 := by omega
        rcases hk2 with rfl | rfl <;> rfl, rfl⟩)
      rfl rfl (by decide)).1
    match h with
    | ⟨run, snap, h1, h2, h3, _, h5, _, _, h8⟩ => ⟨run, snap, h1, h2, h3, h5, h8⟩⟩

/-- C5, refuted as stated: for an id the client's get reports as missing, the
outcome of `Read` is the same as for a get error of any other kind with the
same message: one "Error Reading Typesense Cluster" diagnostic, no state set. -/
theorem read_missing_same_as_other_error :
    (scripted.GetCluster missingScript "cluster-1").1 = .error ⟨true, "request failed"⟩ ∧
    (scripted.GetCluster brokenScript "cluster-1").1 = .error ⟨false, "request failed"⟩ ∧
    (Read scripted missingScript staleState).outcome =
      (Read scripted brokenScript staleState).outcome ∧
    (Read scripted missingScript staleState).outcome =
      .returned [⟨"Error Reading Typesense Cluster",
        "Could not read Typesense Cluster ID cluster-1: request failed"⟩] none :=
  ⟨rfl, rfl, rfl, by decide⟩

/-- C5, amended: for every get error, whether or not it reports the id as
missing, `Read` performs that one get, reports the single diagnostic "Error
Reading Typesense Cluster" whose detail carries the id and the error's message,
and sets no state; the result depends on the error through its message only. -/
theorem read_reports_every_get_error_alike {σ : Type} (c : typesenseClient σ) (s s1 : σ)
    (state : typesenseClusterModel) (e : ClientError)
    (hg : c.GetCluster s state.ID.ValueString = (.error e, s1)) :
    Read c s state =
      ⟨[.get state.ID.ValueString], s1,
        .returned [⟨"Error Reading Typesense Cluster",
          "Could not read Typesense Cluster ID " ++ state.ID.ValueString ++ ": " ++ e.message⟩]
          none⟩ :=
  read_error c s state e s1 hg

/-- C5 amended, exercised on an id reported missing. -/
theorem read_reports_every_get_error_alike_witness :
    scripted.GetCluster missingScript staleState.ID.ValueString =
      (.error ⟨true, "request failed"⟩, { missingScript with gets := [] }) ∧
    Read scripted missingScript staleState =
      ⟨[.get staleState.ID.ValueString], { missingScript with gets := [] },
        .returned [⟨"Error Reading Typesense Cluster",
          "Could not read Typesense Cluster ID " ++ staleState.ID.ValueString ++ ": " ++
            (ClientError.mk true "request failed").message⟩] none⟩ :=
  ⟨rfl, read_reports_every_get_error_alike scripted missingScript { missingScript with gets := [] }
    staleState ⟨true, "request failed"⟩ rfl⟩

/-- C6, refuted as stated: a terminating run of `Create` in which neither the
create call nor any get call errors, and which still sets no snapshot: the
record that ends the wait has no region and the run stops at `Regions[0]`. -/
theorem create_neither_error_nor_snapshot :
    (scripted.CreateCluster failedBareScript (createRequest planEast)).1 =
      .ok { ID := "cluster-1", Status := "provisioning" } ∧
    nthGet scripted "cluster-1" 0 failedBareScript =
      .ok { ID := "cluster-1", Regions := ["us-east-1"], Status := "provisioning" } ∧
    nthGet scripted "cluster-1" 1 failedBareScript =
      .ok { ID := "cluster-1", Status := "failed" } ∧
    Create 2 scripted failedBareScript planEast =
      some ⟨[.create (createRequest planEast), .sleep 8, .get "cluster-1", .sleep 8,
          .get "cluster-1"],
        { failedBareScript with gets := [] }, .outOfRange⟩ :=
  ⟨rfl, rfl, rfl, rfl⟩

/-- C6, amended: `Create` reports failure in exactly two distinguishable ways and
sets no state in either. If the create call errors, it reports "Error creating
cluster" with the client's message and performs no get call. If create succeeds
and a polling get errors, it reports the distinct "Error waiting for cluster
state" with that error's message and stops polling at that call. In every other
terminating run whose last polled record has a non-empty regions sequence,
`Create` reports no error and sets the snapshot of that record. Every
terminating run is one of these, or a run whose last polled record has no
region, which stops at the index; in each case the polls before the last one
answered "provisioning" and the last poll is the last event of the run. -/
theorem create_failure_modes {σ : Type} (c : typesenseClient σ) (s : σ)
    (plan : typesenseClusterModel) :
    (∀ e s1, c.CreateCluster s (createRequest plan) = (.error e, s1) →
      ∀ fuel, Create fuel c s plan =
        some ⟨[.create (createRequest plan)], s1,
          .returned [⟨"Error creating cluster",
            "Could not create cluster, unexpected error: " ++ e.message⟩] none⟩) ∧
    (∀ created s1 n e extra, c.CreateCluster s (createRequest plan) = (.ok created, s1) →
      (∀ k, k < n → ∃ p, nthGet c created.ID k s1 = .ok p ∧ p.Status = "provisioning") →
      nthGet c created.ID n s1 = .error e →
      Create (n + 1 + extra) c s plan =
        some ⟨.create (createRequest plan) :: polls created.ID (n + 1),
          afterGets c created.ID (n + 1) s1,
          .returned [⟨"Error waiting for cluster state",
            "Cluster created, but could not reach expected state: " ++ e.message⟩] none⟩) ∧
    (∀ created s1 n r extra, c.CreateCluster s (createRequest plan) = (.ok created, s1) →
      (∀ k, k < n → ∃ p, nthGet c created.ID k s1 = .ok p ∧ p.Status = "provisioning") →
      nthGet c created.ID n s1 = .ok r → r.Status ≠ "provisioning" → r.Regions ≠ [] →
      ∃ snap, setFromCluster plan r = some snap ∧
        Create (n + 1 + extra) c s plan =
          some ⟨.create (createRequest plan) :: polls created.ID (n + 1),
            afterGets c created.ID (n + 1) s1, .returned [] (some snap)⟩) ∧
    (∀ fuel run, Create fuel c s plan = some run →
      (∃ e s1, c.CreateCluster s (createRequest plan) = (.error e, s1) ∧
        run = ⟨[.create (createRequest plan)], s1, .returned [createFailed e] none⟩ ∧
        getCalls run.events = []) ∨
      (∃ created s1 n, c.CreateCluster s (createRequest plan) = (.ok created, s1) ∧
        n < fuel ∧
        (∀ k, k < n → ∃ p, nthGet c created.ID k s1 = .ok p ∧ p.Status = "provisioning") ∧
        run.events = .create (createRequest plan) :: polls created.ID (n + 1) ∧
        getCalls run.events = List.replicate (n + 1) created.ID ∧
        run.final = afterGets c created.ID (n + 1) s1 ∧
        ((∃ e, nthGet c created.ID n s1 = .error e ∧
            run.outcome = .returned [waitFailed e] none) ∨
         (∃ r snap, nthGet c created.ID n s1 = .ok r ∧ r.Status ≠ "provisioning" ∧
            r.Regions ≠ [] ∧ setFromCluster plan r = some snap ∧
            run.outcome = .returned [] (some snap)) ∨
         (∃ r, nthGet c created.ID n s1 = .ok r ∧ r.Status ≠ "provisioning" ∧
            r.Regions = [] ∧ run.outcome = .outOfRange)))) ∧
    (∀ e1 e2, createFailed e1 ≠ waitFailed e2) := by
  refine ⟨?_, ?_, ?_, ?_, createFailed_ne_waitFailed⟩
  · intro e s1 hc fuel
    simp only [Create, hc, createFailed]
  · intro created s1 n e extra hc hprov hg
    exact create_reaches_error c s plan created s1 n extra e hc hprov hg
  · intro created s1 n r extra hc hprov hg hst hreg
    have hrun := create_reaches_ok c s plan created s1 n extra r hc hprov hg hst
    have hsnap := setFromCluster_isSome plan r hreg
    rw [hsnap] at hrun
    exact ⟨_, hsnap, hrun⟩
  · intro fuel run h
    rcases create_sound c s plan fuel run h with
      ⟨e, s1, hc, hrun⟩ | ⟨created, s1, n, hc, hn, hprov, hev, hfin, hres⟩
    · left
      subst hrun
      exact ⟨e, s1, hc, rfl, rfl⟩
    · right
      have hcalls : getCalls run.events = List.replicate (n + 1) created.ID := by
        rw [hev]
        simp [getCalls, getCalls_polls, List.replicate_succ]
      refine ⟨created, s1, n, hc, hn, hprov, hev, hcalls, hfin, ?_⟩
      rcases hres with ⟨e, hg, hout⟩ | ⟨r, hg, hst, ⟨hreg, _, hout⟩ | ⟨snap, hreg, hm, hout⟩⟩
      · exact Or.inl ⟨e, hg, hout⟩
      · exact Or.inr (Or.inr ⟨r, hg, hst, hreg, hout⟩)
      · exact Or.inr (Or.inl ⟨r, snap, hg, hst, hreg, hm, hout⟩)

/-- C6 amended, exercised: a failing create call, a failing second poll, and
a run that ends on a ready record with a region. -/
theorem create_failure_modes_witness :
    (scripted.CreateCluster createErrorScript (createRequest planEast) =
        (.error ⟨false, "quota exceeded"⟩, createErrorScript) ∧
      Create 0 scripted createErrorScript planEast =
        some ⟨[.create (createRequest planEast)], createErrorScript,
          .returned [⟨"Error creating cluster",
            "Could not create cluster, unexpected error: " ++
              (ClientError.mk false "quota exceeded").message⟩] none⟩) ∧
    (nthGet scripted "cluster-1" 1 pollErrorScript = .error ⟨false, "connection reset"⟩ ∧
      Create (1 + 1 + 0) scripted pollErrorScript planEast =
        some ⟨.create (createRequest planEast) :: polls "cluster-1" (1 + 1),
          afterGets scripted "cluster-1" (1 + 1) pollErrorScript,
          .returned [⟨"Error waiting for cluster state",
            "Cluster created, but could not reach expected state: " ++
              (ClientError.mk false "connection reset").message⟩] none⟩) ∧
    (nthGet echoing "cluster-1" 0 (0, some storedEast) =
        .ok { storedEast with Status := "ready" } ∧
      ∃ snap, setFromCluster planEast { storedEast with Status := "ready" } = some snap ∧
        Create (0 + 1 + 0) echoing (0, none) planEast =
          some ⟨.create (createRequest planEast) :: polls "cluster-1" (0 + 1),
            afterGets echoing "cluster-1" (0 + 1) (0, some storedEast),
            .returned [] (some snap)⟩) :=
  ⟨⟨rfl, (create_failure_modes scripted createErrorScript planEast).1
      ⟨false, "quota exceeded"⟩ createErrorScript rfl 0⟩,
   ⟨rfl, (create_failure_modes scripted pollErrorScript planEast).2.1
      { ID := "cluster-1", Status := "provisioning" } pollErrorScript 1
      ⟨false, "connection reset"⟩ 0 rfl
      (fun k hk => ⟨{ ID := "cluster-1", Regions := ["us-east-1"], Status := "provisioning" }, by
        have hk0 : k = 0 := by omega
        subst hk0
        rfl, rfl⟩)
      rfl⟩,
   ⟨rfl, (create_failure_modes echoing (0, none) planEast).2.2.1
      storedEast (0, some storedEast) 0 { storedEast with Status := "ready" } 0 rfl
      (fun k hk => absurd hk (Nat.not_lt_zero k)) rfl (by decide) (by decide)⟩⟩

/-- C9: for every prior state and every record r with non-empty regions returned
by get, `Read` sets a snapshot whose twelve fields are r's id, name, memory,
vcpu, highPerformanceDisk, serverVersion, highAvailability,
searchDeliveryNetwork, loadBalancing, autoUpgradeCapacity and status and, as
region, r.regions[0]; the snapshot is the same for any other prior state (and
client) for which get returns r. Consequently a second `Read`, on the first
one's output and client state, for which get returns the identical record, sets
the identical snapshot. -/
theorem read_snapshot_determined_by_record {σ : Type} (c : typesenseClient σ) (s s1 : σ)
    (prior : typesenseClusterModel) (r : typesenseCluster)
    (hg : c.GetCluster s prior.ID.ValueString = (.ok r, s1)) (hreg : r.Regions ≠ []) :
    ∃ snap,
      Read c s prior = ⟨[.get prior.ID.ValueString], s1, .returned [] (some snap)⟩ ∧
      snap =
        { ID := StringValue r.ID
          Name := StringValue r.Name
          Memory := StringValue r.Memory
          VCPU := StringValue r.VCPU
          HighPerformanceDisk := StringValue r.HighPerformanceDisk
          TypesenseServerVersion := StringValue r.TypesenseServerVersion
          HighAvailability := StringValue r.HighAvailability
          SearchDeliveryNetwork := StringValue r.SearchDeliveryNetwork
          LoadBalancing := StringValue r.LoadBalancing
          Region := StringValue (r.Regions.head hreg)
          AutoUpgradeCapacity := BoolValue r.AutoUpgradeCapacity
          Status := StringValue r.Status } ∧
      (∀ (τ : Type) (c2 : typesenseClient τ) (t t1 : τ) (prior2 : typesenseClusterModel),
        c2.GetCluster t prior2.ID.ValueString = (.ok r, t1) →
        (Read c2 t prior2).outcome = .returned [] (some snap)) ∧
      (∀ s2, c.GetCluster s1 snap.ID.ValueString = (.ok r, s2) →
        (Read c s1 snap).outcome = (Read c s prior).outcome) := by
  refine ⟨_, ?_, rfl, ?_, ?_⟩
  · rw [read_ok c s prior r s1 hg, setFromCluster_isSome prior r hreg]
  · intro τ c2 t t1 prior2 hg2
    rw [read_ok c2 t prior2 r t1 hg2, setFromCluster_isSome prior2 r hreg]
  · intro s2 hg2
    rw [read_ok c s1 _ r s2 hg2, read_ok c s prior r s1 hg, setFromCluster_isSome _ r hreg,
      setFromCluster_isSome prior r hreg]

/-- C9, exercised: reading a stale state twice against a client that keeps
returning the same record. -/
theorem read_snapshot_determined_by_record_witness :
    echoing.GetCluster (0, some readyEast) staleState.ID.ValueString =
      (.ok readyEast, (0, some readyEast)) ∧
    readyEast.Regions ≠ [] ∧
    Read echoing (0, some readyEast) staleState =
      ⟨[.get "cluster-1"], (0, some readyEast), .returned [] (some snapEast)⟩ ∧
    Read echoing (0, some readyEast) snapEast =
      ⟨[.get "cluster-1"], (0, some readyEast), .returned [] (some snapEast)⟩ :=
  ⟨rfl, by decide,
    match read_snapshot_determined_by_record echoing (0, some readyEast) (0, some readyEast)
      staleState readyEast rfl (by decide) with
    | ⟨_, h1, h2, _, _⟩ => by rw [h1, h2]; rfl,
    rfl⟩

/-- C10: the record-to-snapshot mapping of `Create`, `Read` and `Update` indexes
regions[0] without a length check. The mapping yields a snapshot exactly when
the record's regions sequence is non-empty. For a successfully fetched record
(in `Create`: the first polled record whose status is not "provisioning"), a
non-empty regions sequence makes the operation return with a snapshot set and
no diagnostic, and an empty one makes it stop at the index: it neither sets a
snapshot nor reports an error diagnostic. -/
theorem regions_index_unchecked {σ : Type} (c : typesenseClient σ) (s : σ)
    (m : typesenseClusterModel) (r : typesenseCluster) :
    ((∃ snap, setFromCluster m r = some snap) ↔ r.Regions ≠ []) ∧
    (∀ s1, c.GetCluster s m.ID.ValueString = (.ok r, s1) →
      (r.Regions ≠ [] → ∃ snap, (Read c s m).outcome = .returned [] (some snap)) ∧
      (r.Regions = [] → (Read c s m).outcome = .outOfRange ∧
        ∀ diags st, (Read c s m).outcome ≠ .returned diags st)) ∧
    (∀ s1 s2, c.UpdateCluster s (updateRequest m) = (none, s1) →
      c.GetCluster s1 m.ID.ValueString = (.ok r, s2) →
      (r.Regions ≠ [] → ∃ snap, (Update c s m).outcome = .returned [] (some snap)) ∧
      (r.Regions = [] → (Update c s m).outcome = .outOfRange ∧
        ∀ diags st, (Update c s m).outcome ≠ .returned diags st)) ∧
    (∀ created s1 n extra, c.CreateCluster s (createRequest m) = (.ok created, s1) →
      (∀ k, k < n → ∃ p, nthGet c created.ID k s1 = .ok p ∧ p.Status = "provisioning") →
      nthGet c created.ID n s1 = .ok r → r.Status ≠ "provisioning" →
      (r.Regions ≠ [] → ∃ run snap, Create (n + 1 + extra) c s m = some run ∧
        run.outcome = .returned [] (some snap)) ∧
      (r.Regions = [] → ∃ run, Create (n + 1 + extra) c s m = some run ∧
        run.outcome = .outOfRange ∧ ∀ diags st, run.outcome ≠ .returned diags st)) := by
  refine ⟨?_, ?_, ?_, ?_⟩
  · constructor
    · rintro ⟨snap, hsnap⟩ hnil
      rw [setFromCluster_nil m r hnil] at hsnap
      cases hsnap
    · intro hne
      exact ⟨_, setFromCluster_isSome m r hne⟩
  · intro s1 hg
    rw [read_ok c s m r s1 hg]
    constructor
    · intro hne
      rw [setFromCluster_isSome m r hne]
      exact ⟨_, rfl⟩
    · intro hnil
      rw [setFromCluster_nil m r hnil]
      exact ⟨rfl, fun diags st hcon => by cases hcon⟩
  · intro s1 s2 hu hg
    rw [update_read_ok c s m s1 r s2 hu hg]
    constructor
    · intro hne
      rw [setFromCluster_isSome m r hne]
      exact ⟨_, rfl⟩
    · intro hnil
      rw [setFromCluster_nil m r hnil]
      exact ⟨rfl, fun diags st hcon => by cases hcon⟩
  · intro created s1 n extra hc hprov hg hst
    have hrun := create_reaches_ok c s m created s1 n extra r hc hprov hg hst
    constructor
    · intro hne
      rw [setFromCluster_isSome m r hne] at hrun
      exact ⟨_, _, hrun, rfl⟩
    · intro hnil
      rw [setFromCluster_nil m r hnil] at hrun
      exact ⟨_, hrun, rfl, fun diags st hcon => by cases hcon⟩

/-- C10, exercised: `Read` of a record without regions stops at the index, and
`Read` of a record with a region sets a snapshot. -/
theorem regions_index_unchecked_witness :
    (scripted.GetCluster updateBareScript staleState.ID.ValueString =
        (.ok { ID := "cluster-1", Name := "search", AutoUpgradeCapacity := true,
               Status := "ready" }, { updateBareScript with gets := [] }) ∧
      (Read scripted updateBareScript staleState).outcome = .outOfRange) ∧
    (echoing.GetCluster (0, some readyEast) staleState.ID.ValueString =
        (.ok readyEast, (0, some readyEast)) ∧
      ∃ snap, (Read echoing (0, some readyEast) staleState).outcome =
        .returned [] (some snap)) :=
  ⟨⟨rfl, (((regions_index_unchecked scripted updateBareScript staleState
      { ID := "cluster-1", Name := "search", AutoUpgradeCapacity := true,
        Status := "ready" }).2.1 { updateBareScript with gets := [] } rfl).2 rfl).1⟩,
   ⟨rfl, ((regions_index_unchecked echoing (0, some readyEast) staleState readyEast).2.1
      (0, some readyEast) rfl).1 (by decide)⟩⟩

end Typesense
